import Mathlib

/-!
Verification development for the nfc-laboratory core: the NFC protocol-frame
classifier (`StreamModel.cpp`), the frame stream buffer (`StreamModel.cpp`),
and the radio device backends (`AirspyDevice.cpp`, `MiriDevice` sources).

Part 1: frame data model and the protocol event classifier.
-/

/-- Modelled from the spec: the `NfcFrame` technology tag. The spec's data
model lists "technology tag (A/B/F/V)" (the `NfcFrame` type itself is not
among the sources; only its callers in `StreamModel.cpp` are). -/
inductive TechType
  | nfcA
  | nfcB
  | nfcF
  | nfcV
deriving DecidableEq, Repr

/-- Modelled from the spec: frame direction and carrier signaling. The spec
lists "direction (poll/listen)" and "carrier-on/off bits"; the classifier in
`StreamModel.cpp` treats `isPollFrame`, `isListenFrame`, `isCarrierOn` and
`isCarrierOff` as mutually exclusive (carrier transitions are checked first
and are neither poll nor listen), so they are one tag here. -/
inductive FrameType
  | pollFrame
  | listenFrame
  | carrierOn
  | carrierOff
deriving DecidableEq, Repr

/-- Modelled from the spec: the immutable `NfcFrame` record as used by the
classifier: technology tag, direction/carrier tag, encrypted bit,
start/end timestamps and payload bytes. Bytes are stored as C++
`unsigned char`, hence reads are taken mod 256. -/
structure NfcFrame where
  techType : TechType
  frameType : FrameType
  encrypted : Bool
  timeStart : Rat
  timeEnd : Rat
  payload : List Nat
deriving DecidableEq, Repr

/-- Modelled from the spec: `NfcFrame::limit()`, the payload byte count. -/
def NfcFrame.limit (f : NfcFrame) : Nat :=
  f.payload.length

/-- Modelled from the spec: `(*frame)[i]`, the i-th payload byte. Storage is
`unsigned char` so the stored value is the written value mod 256; an index
past `limit()` is an out-of-bounds access in the C++ code (tracked separately
by `classifierReads`), the model returns byte 0 there. -/
def NfcFrame.byteAt (f : NfcFrame) (i : Nat) : Nat :=
  (f.payload.getD i 0) % 256

/-- `NfcACmd` table from `StreamModel.cpp`. -/
def NfcACmd : List (Nat × String) :=
  [ (0x1A, "AUTH")
  , (0x1B, "PWD_AUTH")
  , (0x26, "REQA")
  , (0x30, "READ")
  , (0x39, "READ_CNT")
  , (0x3A, "FAST_READ")
  , (0x3C, "READ_SIG")
  , (0x3E, "TEARING")
  , (0x4B, "VCSL")
  , (0x50, "HLTA")
  , (0x52, "WUPA")
  , (0x60, "AUTH")
  , (0x61, "AUTH")
  , (0x93, "SEL1")
  , (0x95, "SEL2")
  , (0x97, "SEL3")
  , (0xA0, "COMP_WRITE")
  , (0xA2, "WRITE")
  , (0xA5, "INCR_CNT")
  , (0xE0, "RATS") ]

/-- `NfcAResp` table from `StreamModel.cpp`. -/
def NfcAResp : List (Nat × String) :=
  [ (0x26, "ATQA")
  , (0x52, "ATQA") ]

/-- `NfcBCmd` table from `StreamModel.cpp`. -/
def NfcBCmd : List (Nat × String) :=
  [ (0x05, "REQB")
  , (0x1d, "ATTRIB")
  , (0x50, "HLTB") ]

/-- `NfcBResp` table from `StreamModel.cpp`. -/
def NfcBResp : List (Nat × String) :=
  [ (0x05, "ATQB") ]

/-- `NfcFCmd` table from `StreamModel.cpp`. -/
def NfcFCmd : List (Nat × String) :=
  [ (0x00, "REQC") ]

/-- `NfcFResp` table from `StreamModel.cpp`. -/
def NfcFResp : List (Nat × String) :=
  [ (0x00, "ATQC") ]

/-- `NfcVCmd` table from `StreamModel.cpp`. -/
def NfcVCmd : List (Nat × String) :=
  [ (0x01, "Inventory")
  , (0x02, "StayQuiet")
  , (0x20, "ReadBlock")
  , (0x21, "WriteBlock")
  , (0x22, "LockBlock")
  , (0x23, "ReadBlocks")
  , (0x24, "WriteBlocks")
  , (0x25, "Select")
  , (0x26, "Reset")
  , (0x27, "WriteAFI")
  , (0x28, "LockAFI")
  , (0x29, "WriteDSFID")
  , (0x2a, "LockDSFID")
  , (0x2b, "SysInfo")
  , (0x2c, "GetSecurity") ]

/-- `QMap::contains` followed by `operator[]` on a table with distinct keys:
the label for `cmd` if present, otherwise the empty label. -/
def tableLookup (table : List (Nat × String)) (cmd : Nat) : String :=
  match table.lookup cmd with
  | some s => s
  | none => ""

/-- One lowercase hexadecimal digit, as produced by Qt integer formatting
with base 16 (`QString::arg` uses lowercase letters). -/
def hexDigit (n : Nat) : Char :=
  if n < 10 then Char.ofNat (0x30 + n) else Char.ofNat (0x57 + n)

/-- `QString("CMD %1").arg(command, 2, 16, QChar('0'))` for a byte value:
two lowercase hexadecimal digits padded with zero. -/
def hex2 (n : Nat) : String :=
  String.mk [hexDigit (n / 16 % 16), hexDigit (n % 16)]

/-- `StreamModel::Impl::eventIsoDep` from `StreamModel.cpp` lines 389-422:
the ISO-DEP overlay, an if-chain of masked first-byte patterns with length
conditions, first match wins. -/
def eventIsoDep (frame : NfcFrame) : String :=
  let command := frame.byteAt 0
  if command &&& 0xF7 = 0xC2 ∧ 3 ≤ frame.limit ∧ frame.limit ≤ 4 then "S(Deselect)"
  else if command &&& 0xF7 = 0xF2 ∧ 3 ≤ frame.limit ∧ frame.limit ≤ 4 then "S(WTX)"
  else if command &&& 0xF6 = 0xA2 ∧ frame.limit = 3 then "R(ACK)"
  else if command &&& 0xF6 = 0xB2 ∧ frame.limit = 3 then "R(NACK)"
  else if command &&& 0xE2 = 0x02 ∧ 4 ≤ frame.limit then "I-Block"
  else if command &&& 0xE6 = 0xA2 ∧ frame.limit = 3 then "R-Block"
  else if command &&& 0xC7 = 0xC2 ∧ 3 ≤ frame.limit ∧ frame.limit ≤ 4 then "S-Block"
  else ""

/-- `StreamModel::Impl::eventNfcA` from `StreamModel.cpp` lines 282-330:
encrypted frames are skipped; poll frames check HALT, PPS, the ISO-DEP
overlay and then the `NfcACmd` table; other frames with a preceding poll
frame check SAK/UID (after the three select commands), ATS (after 0xE0),
the ISO-DEP overlay and then the `NfcAResp` table keyed on the preceding
poll command byte. -/
def eventNfcA (frame : NfcFrame) (prev : Option NfcFrame) : String :=
  if frame.encrypted then ""
  else if frame.frameType = FrameType.pollFrame then
    let command := frame.byteAt 0
    if command = 0x50 ∧ frame.limit = 4 then "HALT"
    else if command &&& 0xF0 = 0xD0 ∧ frame.limit = 5 then "PPS"
    else if eventIsoDep frame ≠ "" then eventIsoDep frame
    else tableLookup NfcACmd command
  else
    match prev with
    | some p =>
      if p.frameType = FrameType.pollFrame then
        let command := p.byteAt 0
        if (command = 0x93 ∨ command = 0x95 ∨ command = 0x97) ∧ frame.limit = 3 then "SAK"
        else if (command = 0x93 ∨ command = 0x95 ∨ command = 0x97) ∧ frame.limit = 5 then "UID"
        else if command = 0xE0 ∧ (frame.byteAt 0 : Int) = (frame.limit : Int) - 2 then "ATS"
        else if eventIsoDep frame ≠ "" then eventIsoDep frame
        else tableLookup NfcAResp command
      else ""
    | none => ""

/-- `StreamModel::Impl::eventNfcB` from `StreamModel.cpp` lines 332-352:
poll and listen frames both check the ISO-DEP overlay first, then their
per-direction table keyed on the first payload byte. -/
def eventNfcB (frame : NfcFrame) (_prev : Option NfcFrame) : String :=
  if frame.frameType = FrameType.pollFrame then
    let command := frame.byteAt 0
    if eventIsoDep frame ≠ "" then eventIsoDep frame
    else tableLookup NfcBCmd command
  else if frame.frameType = FrameType.listenFrame then
    let command := frame.byteAt 0
    if eventIsoDep frame ≠ "" then eventIsoDep frame
    else tableLookup NfcBResp command
  else ""

/-- `StreamModel::Impl::eventNfcF` from `StreamModel.cpp` lines 354-372:
the command byte is read from payload index 1 before any direction check;
an unmatched poll frame gets the synthesized `CMD xx` label (two lowercase
hexadecimal digits), an unmatched listen frame gets the empty label. -/
def eventNfcF (frame : NfcFrame) (_prev : Option NfcFrame) : String :=
  let command := frame.byteAt 1
  if frame.frameType = FrameType.pollFrame then
    match NfcFCmd.lookup command with
    | some s => s
    | none => "CMD " ++ hex2 command
  else if frame.frameType = FrameType.listenFrame then
    tableLookup NfcFResp command
  else ""

/-- `StreamModel::Impl::eventNfcV` from `StreamModel.cpp` lines 374-387:
only poll frames are classified, keyed on payload index 1, with the
synthesized `CMD xx` label when unmatched; everything else is empty. -/
def eventNfcV (frame : NfcFrame) (_prev : Option NfcFrame) : String :=
  if frame.frameType = FrameType.pollFrame then
    let command := frame.byteAt 1
    match NfcVCmd.lookup command with
    | some s => s
    | none => "CMD " ++ hex2 command
  else ""

/-- `StreamModel::Impl::frameEvent` from `StreamModel.cpp` lines 203-231:
carrier transitions return the fixed labels before any technology
dispatch; otherwise dispatch on the technology tag. -/
def frameEvent (frame : NfcFrame) (prev : Option NfcFrame) : String :=
  if frame.frameType = FrameType.carrierOn then "RF-On"
  else if frame.frameType = FrameType.carrierOff then "RF-Off"
  else
    match frame.techType with
    | TechType.nfcA => eventNfcA frame prev
    | TechType.nfcB => eventNfcB frame prev
    | TechType.nfcF => eventNfcF frame prev
    | TechType.nfcV => eventNfcV frame prev

/-- The payload indices the classifier reads from the frame itself, branch by
branch from `StreamModel.cpp`: carrier transitions read nothing; technology A
skips encrypted frames, reads index 0 for poll frames, and for other frames
with a preceding poll frame reads index 0 unless the SAK/UID checks already
returned (select command with length 3 or 5); technology B reads index 0 for
poll and listen frames; technology F reads index 1 before any direction
check; technology V reads index 1 for poll frames only. -/
def classifierReads (f : NfcFrame) (prev : Option NfcFrame) : List Nat :=
  if f.frameType = FrameType.carrierOn ∨ f.frameType = FrameType.carrierOff then []
  else
    match f.techType with
    | TechType.nfcA =>
      if f.encrypted then []
      else if f.frameType = FrameType.pollFrame then [0]
      else
        match prev with
        | some p =>
          if p.frameType = FrameType.pollFrame then
            if (p.byteAt 0 = 0x93 ∨ p.byteAt 0 = 0x95 ∨ p.byteAt 0 = 0x97)
                ∧ (f.limit = 3 ∨ f.limit = 5) then []
            else [0]
          else []
        | none => []
    | TechType.nfcB =>
      if f.frameType = FrameType.pollFrame ∨ f.frameType = FrameType.listenFrame then [0]
      else []
    | TechType.nfcF => [1]
    | TechType.nfcV =>
      if f.frameType = FrameType.pollFrame then [1] else []

/-!
Part 2: radio device backends (`AirspyDevice.cpp` and the `MiriDevice`
sources) with the shared bounded streaming queue.
-/

/-- `SignalBuffer` reduced to the field the device code observes:
`elements()`, the stored sample count. A default-constructed buffer has no
elements. -/
structure SignalBuffer where
  elements : Nat
deriving DecidableEq, Repr

/-- Device state shared by `AirspyDevice::Impl` and `MiriDevice::Impl`:
handle presence, hardware streaming status, registered callback, bounded
streaming queue, the two counters, the session start time (0 when unset) and
the stored configuration values. -/
structure DeviceState where
  deviceHandle : Bool
  hwStreaming : Bool
  streamCallback : Bool
  streamQueue : List SignalBuffer
  samplesReceived : Nat
  samplesDropped : Nat
  streamTime : Nat
  centerFreq : Int
  sampleRate : Int
  gainMode : Int
  gainValue : Int
  tunerAgc : Int
  mixerAgc : Int
  decimation : Int
deriving DecidableEq, Repr

/-- The queue update both `process_transfer` implementations perform
(`MAX_QUEUE_SIZE` is 4 in both sources): when the queue is at or above
capacity, pop the oldest buffer (returned as the eviction) and push the new
one, otherwise just push. Returns the new queue and the evicted buffers. -/
def queueStep (q : List SignalBuffer) (b : SignalBuffer) :
    List SignalBuffer × List SignalBuffer :=
  if 4 ≤ q.length then (q.drop 1 ++ [b], q.take 1) else (q ++ [b], [])

/-- One buffer delivery as performed by both `process_transfer`
implementations: add `recvInc` to `samplesReceived` and `hwDrop` to
`samplesDropped` (the Airspy transfer's `dropped_samples`; always 0 for
Miri), then either forward to the registered callback (queue untouched) or
push into the bounded queue, adding each evicted buffer's `elements()` to
`samplesDropped`. Returns the new state and the evicted buffers. -/
def deliverBuffer (b : SignalBuffer) (recvInc hwDrop : Nat) (d : DeviceState) :
    DeviceState × List SignalBuffer :=
  let d1 : DeviceState :=
    { d with samplesReceived := d.samplesReceived + recvInc,
             samplesDropped := d.samplesDropped + hwDrop }
  if d1.streamCallback then (d1, [])
  else
    let qe := queueStep d1.streamQueue b
    ({ d1 with streamQueue := qe.1,
               samplesDropped := d1.samplesDropped + (qe.2.map SignalBuffer.elements).sum },
     qe.2)

/-- Sample type tag of an Airspy transfer; the `process_transfer` switch in
`AirspyDevice.cpp` handles the two float formats and leaves the buffer
default-constructed for anything else. -/
inductive AirspySampleType
  | float32Real
  | float32Iq
  | otherType
deriving DecidableEq, Repr

/-- One `airspy_transfer` as observed by `process_transfer`: sample count,
hardware-reported dropped samples, and the sample type. -/
structure AirspyTransfer where
  sampleCount : Nat
  droppedSamples : Nat
  sampleType : AirspySampleType
deriving DecidableEq, Repr

/-- The `SignalBuffer` built by `process_transfer` in `AirspyDevice.cpp`:
`sample_count` elements for real samples, `sample_count * 2` for IQ, and a
default-constructed (empty) buffer for an unhandled sample type. -/
def transferBuffer (t : AirspyTransfer) : SignalBuffer :=
  match t.sampleType with
  | AirspySampleType.float32Real => ⟨t.sampleCount⟩
  | AirspySampleType.float32Iq => ⟨t.sampleCount * 2⟩
  | AirspySampleType.otherType => ⟨0⟩

/-- `process_transfer` from `AirspyDevice.cpp` lines 704-758 (the valid-context
path): build the buffer, update the counters with `sample_count` and
`dropped_samples`, then forward to the callback or push into the bounded
queue with drop-oldest accounting. -/
def AirspyDevice.process_transfer (t : AirspyTransfer) (d : DeviceState) :
    DeviceState × List SignalBuffer :=
  deliverBuffer (transferBuffer t) t.sampleCount t.droppedSamples d

/-- `process_transfer` from the `MiriDevice` source lines 646-686 (the
valid-context path): the queued buffer is default-constructed (the real
construction is commented out in the source), `samplesReceived` grows by
`len`, and there is no hardware dropped-sample count. -/
def MiriDevice.process_transfer (len : Nat) (d : DeviceState) :
    DeviceState × List SignalBuffer :=
  deliverBuffer ⟨0⟩ len 0 d

/-- Sequential delivery of a list of buffers, each with its received/dropped
increments, through `deliverBuffer`; collects all evictions in order. -/
def runDeliver : List (SignalBuffer × Nat × Nat) → DeviceState →
    DeviceState × List SignalBuffer
  | [], d => (d, [])
  | item :: rest, d =>
    let s := deliverBuffer item.1 item.2.1 item.2.2 d
    let r := runDeliver rest s.1
    (r.1, s.2 ++ r.2)

/-- Folding `AirspyDevice.process_transfer` over a list of transfers. -/
def AirspyDevice.runTransfers : List AirspyTransfer → DeviceState →
    DeviceState × List SignalBuffer
  | [], d => (d, [])
  | t :: ts, d =>
    let s := AirspyDevice.process_transfer t d
    let r := AirspyDevice.runTransfers ts s.1
    (r.1, s.2 ++ r.2)

/-- Folding `MiriDevice.process_transfer` over a list of transfer lengths. -/
def MiriDevice.runTransfers : List Nat → DeviceState →
    DeviceState × List SignalBuffer
  | [], d => (d, [])
  | l :: ls, d =>
    let s := MiriDevice.process_transfer l d
    let r := MiriDevice.runTransfers ls s.1
    (r.1, s.2 ++ r.2)

/-- `AirspyDevice::Impl::isOpen`: a live handle exists. -/
def AirspyDevice.isOpen (d : DeviceState) : Bool :=
  d.deviceHandle

/-- `AirspyDevice::Impl::isStreaming`: a live handle exists and the hardware
reports streaming (`airspy_is_streaming`, modelled by `hwStreaming`). -/
def AirspyDevice.isStreaming (d : DeviceState) : Bool :=
  d.deviceHandle && d.hwStreaming

/-- `AirspyDevice::Impl::start` from `AirspyDevice.cpp` lines 209-238:
without a handle return -1; otherwise zero both counters, set the callback,
clear the queue, attempt `airspy_start_rx` (result `armResult`, 0 is
`AIRSPY_SUCCESS`; success arms the hardware), clear the callback again on
arm failure, record the stream start time, and return the arm result. -/
def AirspyDevice.start (armResult : Int) (now : Nat) (d : DeviceState) :
    Int × DeviceState :=
  if d.deviceHandle then
    let d1 : DeviceState :=
      { d with samplesDropped := 0, samplesReceived := 0,
               streamCallback := true, streamQueue := [] }
    let d2 : DeviceState :=
      if armResult = 0 then { d1 with hwStreaming := true }
      else { d1 with streamCallback := false }
    (armResult, { d2 with streamTime := now })
  else (-1, d)

/-- `AirspyDevice::Impl::stop` from `AirspyDevice.cpp` lines 240-259:
without a handle and a registered callback return -1; otherwise cancel
reception (`airspy_stop_rx` result `cancelResult`; a failure is only
logged), clear the callback and the queue, reset the stream time to unset,
and return the cancel result. -/
def AirspyDevice.stop (cancelResult : Int) (d : DeviceState) :
    Int × DeviceState :=
  if d.deviceHandle ∧ d.streamCallback then
    (cancelResult,
      { d with hwStreaming := false, streamCallback := false,
               streamQueue := [], streamTime := 0 })
  else (-1, d)

/-- `AirspyDevice::Impl::setCenterFreq`: store unconditionally; with a live
handle attempt the hardware push (its result is returned), else return 0. -/
def AirspyDevice.setCenterFreq (pushResult : Int) (d : DeviceState) (value : Int) :
    Int × DeviceState :=
  let d1 : DeviceState := { d with centerFreq := value }
  if d1.deviceHandle then (pushResult, d1) else (0, d1)

/-- `AirspyDevice::Impl::setSampleRate`: store unconditionally, then push. -/
def AirspyDevice.setSampleRate (pushResult : Int) (d : DeviceState) (value : Int) :
    Int × DeviceState :=
  let d1 : DeviceState := { d with sampleRate := value }
  if d1.deviceHandle then (pushResult, d1) else (0, d1)

/-- `AirspyDevice::Impl::setGainValue`: store unconditionally, then push the
linearity or sensitivity gain depending on the stored mode. -/
def AirspyDevice.setGainValue (pushResult : Int) (d : DeviceState) (value : Int) :
    Int × DeviceState :=
  let d1 : DeviceState := { d with gainValue := value }
  if d1.deviceHandle then (pushResult, d1) else (0, d1)

/-- `AirspyDevice::Impl::setGainMode`: store unconditionally; with a live
handle push the AGC settings in Auto mode (constant 0, per the device's
gain-mode enumeration) or re-apply the stored gain value otherwise. -/
def AirspyDevice.setGainMode (pushResult : Int) (d : DeviceState) (mode : Int) :
    Int × DeviceState :=
  let d1 : DeviceState := { d with gainMode := mode }
  if d1.deviceHandle then
    if mode = 0 then (pushResult, d1)
    else AirspyDevice.setGainValue pushResult d1 d1.gainValue
  else (0, d1)

/-- `AirspyDevice::Impl::setTunerAgc`: store unconditionally; a non-zero
value also forces the gain mode to Auto; with a live handle push. -/
def AirspyDevice.setTunerAgc (pushResult : Int) (d : DeviceState) (value : Int) :
    Int × DeviceState :=
  let d1 : DeviceState := { d with tunerAgc := value }
  let d2 : DeviceState := if value ≠ 0 then { d1 with gainMode := 0 } else d1
  if d2.deviceHandle then (pushResult, d2) else (0, d2)

/-- `AirspyDevice::Impl::setMixerAgc`: store unconditionally; a non-zero
value also forces the gain mode to Auto; with a live handle push. -/
def AirspyDevice.setMixerAgc (pushResult : Int) (d : DeviceState) (value : Int) :
    Int × DeviceState :=
  let d1 : DeviceState := { d with mixerAgc := value }
  let d2 : DeviceState := if value ≠ 0 then { d1 with gainMode := 0 } else d1
  if d2.deviceHandle then (pushResult, d2) else (0, d2)

/-- `AirspyDevice::Impl::setDecimation`: store unconditionally, return 0. -/
def AirspyDevice.setDecimation (d : DeviceState) (value : Int) :
    Int × DeviceState :=
  (0, { d with decimation := value })

/-- `MiriDevice::sampleRate()` public accessor from the `MiriDevice` source:
it returns the literal 0, not the Impl's stored `sampleRate`. -/
def MiriDevice.sampleRate (_d : DeviceState) : Int :=
  0

/-- `MiriDevice::setSampleRate(long)` public mutator from the `MiriDevice`
source: it returns 0 without delegating to `Impl::setSampleRate`, so the
requested value is discarded at the public boundary. -/
def MiriDevice.setSampleRate (d : DeviceState) (_value : Int) :
    Int × DeviceState :=
  (0, d)

/-- `MiriDevice::Impl::setSampleRate` from the `MiriDevice` source: stores
the value unconditionally, pushes with a live handle (returning 0), and
returns -1 without a handle. The public wrapper above never calls it. -/
def MiriDevice.implSetSampleRate (d : DeviceState) (value : Int) :
    Int × DeviceState :=
  let d1 : DeviceState := { d with sampleRate := value }
  if d1.deviceHandle then (0, d1) else (-1, d1)

/-!
Part 3: the frame stream buffer of `StreamModel.cpp`: a pending queue fed by
`append`, a visible list filled by `fetchMore` (the materialize operation),
and `modelRange` over the visible list.
-/

/-- The two frame containers of `StreamModel::Impl`: the pending stream
queue (`stream`) and the visible, randomly-indexable frame list (`frames`). -/
structure StreamState where
  stream : List NfcFrame
  frames : List NfcFrame
deriving Repr

/-- `StreamModel::append` from `StreamModel.cpp` lines 609-614: enqueue the
frame into the pending queue; the visible list is untouched. -/
def StreamModel.append (s : StreamState) (f : NfcFrame) : StreamState :=
  { s with stream := s.stream ++ [f] }

/-- `StreamModel::fetchMore` from `StreamModel.cpp` lines 569-581 (the
materialize operation): dequeue every pending frame in FIFO order and append
it to the visible list. -/
def StreamModel.fetchMore (s : StreamState) : StreamState :=
  { stream := [], frames := s.frames ++ s.stream }

/-- `StreamModel::modelRange` from `StreamModel.cpp` lines 593-608: the
indices, in ascending order, of visible frames whose start time is at least
`tfrom` and whose end time is at most `tto`. -/
def StreamModel.modelRange (s : StreamState) (tfrom tto : Rat) : List Nat :=
  (List.range s.frames.length).filter fun i =>
    match s.frames[i]? with
    | some fr => decide (tfrom ≤ fr.timeStart) && decide (fr.timeEnd ≤ tto)
    | none => false

/-- An operation on the frame stream buffer: a producer `append` or a
consumer-driven `fetchMore` (materialize). -/
inductive StreamOp
  | append (f : NfcFrame)
  | fetchMore

/-- Run a sequence of stream-buffer operations from a given state. -/
def StreamModel.runOps : StreamState → List StreamOp → StreamState
  | s, [] => s
  | s, StreamOp.append f :: ops => StreamModel.runOps (StreamModel.append s f) ops
  | s, StreamOp.fetchMore :: ops => StreamModel.runOps (StreamModel.fetchMore s) ops

/-- The frames appended by a sequence of operations, in order. -/
def appendedFrames (ops : List StreamOp) : List NfcFrame :=
  ops.filterMap fun op =>
    match op with
    | StreamOp.append f => some f
    | StreamOp.fetchMore => none

/-!
Spec-side definition for the ISO-DEP overlay: the spec presents the overlay
as an ordered table of masked patterns with length conditions, first match
wins. This is compared with the source-side `eventIsoDep` if-chain.
-/

/-- One ISO-DEP overlay rule as the spec words it: a mask and value for the
first byte, a length range (upper bound optional) and the label. -/
structure IsoDepRule where
  mask : Nat
  value : Nat
  minLen : Nat
  maxLen : Option Nat
  label : String

/-- The spec's ordered ISO-DEP pattern table. -/
def isoDepRules : List IsoDepRule :=
  [ ⟨0xF7, 0xC2, 3, some 4, "S(Deselect)"⟩
  , ⟨0xF7, 0xF2, 3, some 4, "S(WTX)"⟩
  , ⟨0xF6, 0xA2, 3, some 3, "R(ACK)"⟩
  , ⟨0xF6, 0xB2, 3, some 3, "R(NACK)"⟩
  , ⟨0xE2, 0x02, 4, none, "I-Block"⟩
  , ⟨0xE6, 0xA2, 3, some 3, "R-Block"⟩
  , ⟨0xC7, 0xC2, 3, some 4, "S-Block"⟩ ]

/-- Whether a rule matches a first byte and a frame length. -/
def ruleMatches (r : IsoDepRule) (cmd len : Nat) : Bool :=
  decide (cmd &&& r.mask = r.value) && decide (r.minLen ≤ len) &&
    (match r.maxLen with
     | some m => decide (len ≤ m)
     | none => true)

/-- First-match evaluation of an ordered rule list, empty label when no rule
matches. -/
def isoDepFirstMatch : List IsoDepRule → Nat → Nat → String
  | [], _, _ => ""
  | r :: rs, cmd, len =>
    if ruleMatches r cmd len then r.label else isoDepFirstMatch rs cmd len

/-- The spec's ISO-DEP overlay label for a first byte and frame length. -/
def isoDepSpecLabel (cmd len : Nat) : String :=
  isoDepFirstMatch isoDepRules cmd len

/-- Helper: the frame's first byte is below 256. -/
theorem byteAt_lt_256 (f : NfcFrame) (i : Nat) : f.byteAt i < 256 :=
  Nat.mod_lt _ (by decide)

/-- Helper: any frame with first byte 0xC2 and length 3 gets the Deselect
label from the ISO-DEP overlay. -/
theorem eventIsoDep_deselect_of (f : NfcFrame) (h0 : f.byteAt 0 = 0xC2)
    (hl : f.limit = 3) : eventIsoDep f = "S(Deselect)" := by
  simp only [eventIsoDep, h0, hl]
  decide

/-- C2 (amended): the ISO-DEP overlay equals the spec's ordered
first-match pattern table on every frame, and every technology-A or
technology-B frame with first byte 0xC2 and length 3 that reaches the
overlay classifies as S(Deselect): a technology-A poll frame that is not
encrypted; a technology-A non-encrypted listen frame whose preceding frame
is a poll frame with first byte not one of the three select commands; and
any technology-B poll or listen frame. -/
theorem eventIsoDep_priority_deselect :
    (∀ f : NfcFrame, eventIsoDep f = isoDepSpecLabel (f.byteAt 0) f.limit)
    ∧ (∀ (f : NfcFrame) (p : Option NfcFrame),
        f.techType = TechType.nfcA → f.frameType = FrameType.pollFrame →
        f.encrypted = false → f.byteAt 0 = 0xC2 → f.limit = 3 →
        frameEvent f p = "S(Deselect)")
    ∧ (∀ f q : NfcFrame,
        f.techType = TechType.nfcA → f.frameType = FrameType.listenFrame →
        f.encrypted = false → q.frameType = FrameType.pollFrame →
        q.byteAt 0 ≠ 0x93 → q.byteAt 0 ≠ 0x95 → q.byteAt 0 ≠ 0x97 →
        f.byteAt 0 = 0xC2 → f.limit = 3 →
        frameEvent f (some q) = "S(Deselect)")
    ∧ (∀ (f : NfcFrame) (p : Option NfcFrame),
        f.techType = TechType.nfcB →
        (f.frameType = FrameType.pollFrame ∨ f.frameType = FrameType.listenFrame) →
        f.byteAt 0 = 0xC2 → f.limit = 3 →
        frameEvent f p = "S(Deselect)") := by
  refine ⟨?_, ?_, ?_, ?_⟩
  · intro f
    simp only [eventIsoDep, isoDepSpecLabel, isoDepRules, isoDepFirstMatch, ruleMatches,
      Bool.and_eq_true, Bool.and_true, decide_eq_true_eq, and_assoc, and_true]
    split_ifs <;> first | rfl | omega
  · intro f p ht hp he h0 hl
    have hiso := eventIsoDep_deselect_of f h0 hl
    have hs : ("S(Deselect)" : String) ≠ "" := by decide
    simp only [frameEvent, ht, hp, eventNfcA, he, h0, hl, hiso]
    simp [hs]
  · intro f q ht hl he hq h93 h95 h97 h0 hlim
    have hiso := eventIsoDep_deselect_of f h0 hlim
    have hs : ("S(Deselect)" : String) ≠ "" := by decide
    simp only [frameEvent, ht, hl, eventNfcA, he, hq, h0, hlim, hiso, h93, h95, h97]
    simp [hs]
  · intro f p ht hd h0 hl
    have hiso := eventIsoDep_deselect_of f h0 hl
    have hs : ("S(Deselect)" : String) ≠ "" := by decide
    rcases hd with hp | hp <;>
      simp only [frameEvent, ht, hp, eventNfcB, h0, hl, hiso] <;> simp [hs]

/-- C2 counterexample: an encrypted technology-A poll frame with first byte
0xC2 and length 3 classifies as the empty label, not S(Deselect), so the
claim's unconditional scenario fails. -/
theorem eventIsoDep_deselect_cex :
    frameEvent ⟨TechType.nfcA, FrameType.pollFrame, true, 0, 0, [0xC2, 0, 0]⟩ none = ""
    ∧ ("" : String) ≠ "S(Deselect)" := by
  constructor
  · decide
  · decide

/-- C2 witness: the amended theorem applied at concrete frames. -/
theorem eventIsoDep_priority_deselect_witness :
    eventIsoDep ⟨TechType.nfcA, FrameType.pollFrame, false, 0, 0, [0xC2, 0, 0]⟩
      = isoDepSpecLabel 0xC2 3
    ∧ frameEvent ⟨TechType.nfcA, FrameType.pollFrame, false, 0, 0, [0xC2, 0, 0]⟩ none
      = "S(Deselect)"
    ∧ frameEvent ⟨TechType.nfcA, FrameType.listenFrame, false, 0, 0, [0xC2, 0, 0]⟩
        (some ⟨TechType.nfcA, FrameType.pollFrame, false, 0, 0, [0x26]⟩) = "S(Deselect)"
    ∧ frameEvent ⟨TechType.nfcB, FrameType.listenFrame, false, 0, 0, [0xC2, 0, 0]⟩ none
      = "S(Deselect)" :=
  ⟨eventIsoDep_priority_deselect.1 _,
   eventIsoDep_priority_deselect.2.1 _ none rfl rfl rfl (by decide) (by decide),
   eventIsoDep_priority_deselect.2.2.1 _ _ rfl rfl rfl rfl (by decide) (by decide)
     (by decide) (by decide) (by decide),
   eventIsoDep_priority_deselect.2.2.2 _ none rfl (Or.inr rfl) (by decide) (by decide)⟩

/-- C3 (amended): for every non-encrypted technology-A listen frame whose
preceding frame is a poll frame: a select command (0x93/0x95/0x97) makes a
3-byte listen frame classify as SAK and a 5-byte one as UID; and after a
0xE0 poll command, a listen frame whose first byte equals its length minus 2
classifies as ATS. -/
theorem eventNfcA_listen_responses :
    ∀ f q : NfcFrame,
      f.techType = TechType.nfcA → f.frameType = FrameType.listenFrame →
      f.encrypted = false → q.frameType = FrameType.pollFrame →
      (((q.byteAt 0 = 0x93 ∨ q.byteAt 0 = 0x95 ∨ q.byteAt 0 = 0x97) →
          (f.limit = 3 → frameEvent f (some q) = "SAK")
          ∧ (f.limit = 5 → frameEvent f (some q) = "UID"))
       ∧ (q.byteAt 0 = 0xE0 → (f.byteAt 0 : Int) = (f.limit : Int) - 2 →
          frameEvent f (some q) = "ATS")) := by
  intro f q ht hl he hq
  refine ⟨fun hsel => ⟨fun h3 => ?_, fun h5 => ?_⟩, fun he0 hats => ?_⟩
  · simp only [frameEvent, ht, hl, eventNfcA, he, hq, h3]
    simp [hsel]
  · have hne : ¬((q.byteAt 0 = 0x93 ∨ q.byteAt 0 = 0x95 ∨ q.byteAt 0 = 0x97) ∧ f.limit = 3) := by
      omega
    simp only [frameEvent, ht, hl, eventNfcA, he, hq, h5]
    simp [hsel]
  · have h93 : q.byteAt 0 ≠ 0x93 := by omega
    have h95 : q.byteAt 0 ≠ 0x95 := by omega
    have h97 : q.byteAt 0 ≠ 0x97 := by omega
    simp only [frameEvent, ht, hl, eventNfcA, he, hq, he0, h93, h95, h97, hats]
    simp

/-- C3 counterexample: an encrypted technology-A listen frame of length 3
whose preceding frame is a select-1 poll frame classifies as the empty
label, not SAK, so the claim without the encryption qualifier fails. -/
theorem eventNfcA_listen_responses_cex :
    frameEvent ⟨TechType.nfcA, FrameType.listenFrame, true, 0, 0, [0, 0, 0]⟩
      (some ⟨TechType.nfcA, FrameType.pollFrame, false, 0, 0, [0x93]⟩) = ""
    ∧ ("" : String) ≠ "SAK" := by
  constructor
  · decide
  · decide

/-- C3 witness: the amended theorem applied at concrete frames. -/
theorem eventNfcA_listen_responses_witness :
    frameEvent ⟨TechType.nfcA, FrameType.listenFrame, false, 0, 0, [1, 2, 3, 4, 5]⟩
      (some ⟨TechType.nfcA, FrameType.pollFrame, false, 0, 0, [0x93]⟩) = "UID"
    ∧ frameEvent ⟨TechType.nfcA, FrameType.listenFrame, false, 0, 0, [0x02, 8, 8, 8]⟩
      (some ⟨TechType.nfcA, FrameType.pollFrame, false, 0, 0, [0xE0, 0x50]⟩) = "ATS" :=
  ⟨((eventNfcA_listen_responses _ _ rfl rfl rfl rfl).1 (by decide)).2 (by decide),
   (eventNfcA_listen_responses _ _ rfl rfl rfl rfl).2 (by decide) (by decide)⟩

/-- C4 (amended): technology-F classification keys on payload index 1 for
both directions and technology-V on payload index 1 for poll frames only;
an unmatched technology-F or technology-V poll frame gets the synthesized
label CMD followed by two lowercase (not uppercase) hexadecimal digits of
the command byte; an unmatched technology-F listen frame and every
technology-V listen frame get the empty label. -/
theorem eventNfcF_eventNfcV_keying :
    (∀ (f g : NfcFrame) (p q : Option NfcFrame),
      f.techType = TechType.nfcF → g.techType = TechType.nfcF →
      f.frameType = g.frameType → 2 ≤ f.limit → 2 ≤ g.limit →
      f.byteAt 1 = g.byteAt 1 → frameEvent f p = frameEvent g q)
    ∧ (∀ (f g : NfcFrame) (p q : Option NfcFrame),
      f.techType = TechType.nfcV → g.techType = TechType.nfcV →
      f.frameType = FrameType.pollFrame → g.frameType = FrameType.pollFrame →
      2 ≤ f.limit → 2 ≤ g.limit →
      f.byteAt 1 = g.byteAt 1 → frameEvent f p = frameEvent g q)
    ∧ (∀ (f : NfcFrame) (p : Option NfcFrame),
      f.techType = TechType.nfcV → f.frameType = FrameType.listenFrame →
      frameEvent f p = "")
    ∧ (∀ (f : NfcFrame) (p : Option NfcFrame),
      f.techType = TechType.nfcF → f.frameType = FrameType.pollFrame →
      f.byteAt 1 ≠ 0x00 → frameEvent f p = "CMD " ++ hex2 (f.byteAt 1))
    ∧ (∀ (f : NfcFrame) (p : Option NfcFrame),
      f.techType = TechType.nfcF → f.frameType = FrameType.listenFrame →
      f.byteAt 1 ≠ 0x00 → frameEvent f p = "")
    ∧ (∀ (f : NfcFrame) (p : Option NfcFrame),
      f.techType = TechType.nfcV → f.frameType = FrameType.pollFrame →
      NfcVCmd.lookup (f.byteAt 1) = none →
      frameEvent f p = "CMD " ++ hex2 (f.byteAt 1)) := by
  refine ⟨?_, ?_, ?_, ?_, ?_, ?_⟩
  · intro f g p q ht ht2 hft _ _ hb
    simp only [frameEvent, eventNfcF, ht, ht2, hft, hb]
  · intro f g p q ht ht2 hft hft2 _ _ hb
    simp only [frameEvent, eventNfcV, ht, ht2, hft, hft2, hb]
  · intro f p ht hft
    simp only [frameEvent, eventNfcV, ht, hft]
    simp
  · intro f p ht hft hb
    simp only [frameEvent, eventNfcF, ht, hft]
    simp only [NfcFCmd, List.lookup]
    have : (f.byteAt 1 == 0x00) = false := by
      simp [hb]
    simp [this]
  · intro f p ht hft hb
    simp only [frameEvent, eventNfcF, ht, hft]
    simp only [tableLookup, NfcFResp, List.lookup]
    have : (f.byteAt 1 == 0x00) = false := by
      simp [hb]
    simp [this]
  · intro f p ht hft hlk
    simp only [frameEvent, eventNfcV, ht, hft, hlk]
    simp

/-- C4 counterexample: an unmatched technology-F poll frame with command
byte 0xAB gets the label with lowercase hexadecimal digits, which differs
from the uppercase form the claim states. -/
theorem eventNfcF_eventNfcV_keying_cex :
    frameEvent ⟨TechType.nfcF, FrameType.pollFrame, false, 0, 0, [0x00, 0xAB]⟩ none
      = "CMD ab"
    ∧ ("CMD ab" : String) ≠ "CMD AB" := by
  constructor
  · decide
  · decide

/-- C4 witness: the amended theorem applied at concrete frames. -/
theorem eventNfcF_eventNfcV_keying_witness :
    frameEvent ⟨TechType.nfcF, FrameType.pollFrame, false, 0, 0, [0xFF, 0x00]⟩ none
      = frameEvent ⟨TechType.nfcF, FrameType.pollFrame, false, 0, 0, [0x12, 0x00, 0x34]⟩ none
    ∧ frameEvent ⟨TechType.nfcV, FrameType.listenFrame, false, 0, 0, [0x00, 0x01]⟩ none = ""
    ∧ frameEvent ⟨TechType.nfcF, FrameType.pollFrame, false, 0, 0, [0x00, 0xAB]⟩ none
      = "CMD " ++ hex2 0xAB
    ∧ frameEvent ⟨TechType.nfcF, FrameType.listenFrame, false, 0, 0, [0x00, 0xAB]⟩ none = ""
    ∧ frameEvent ⟨TechType.nfcV, FrameType.pollFrame, false, 0, 0, [0x00, 0xAB]⟩ none
      = "CMD " ++ hex2 0xAB :=
  ⟨eventNfcF_eventNfcV_keying.1 _ _ none none rfl rfl rfl (by decide) (by decide) (by decide),
   eventNfcF_eventNfcV_keying.2.2.1 _ none rfl rfl,
   eventNfcF_eventNfcV_keying.2.2.2.1 _ none rfl rfl (by decide),
   eventNfcF_eventNfcV_keying.2.2.2.2.1 _ none rfl rfl (by decide),
   eventNfcF_eventNfcV_keying.2.2.2.2.2 _ none rfl rfl (by decide)⟩

/-- C5: carrier transitions return the fixed RF-On and RF-Off labels before
any technology dispatch, and a technology-A frame marked encrypted that is
not a carrier transition classifies as the empty label whatever its payload
and direction. -/
theorem frameEvent_carrier_encrypted :
    ∀ (f : NfcFrame) (p : Option NfcFrame),
      (f.frameType = FrameType.carrierOn → frameEvent f p = "RF-On")
      ∧ (f.frameType = FrameType.carrierOff → frameEvent f p = "RF-Off")
      ∧ (f.techType = TechType.nfcA → f.encrypted = true →
          f.frameType ≠ FrameType.carrierOn → f.frameType ≠ FrameType.carrierOff →
          frameEvent f p = "") := by
  intro f p
  refine ⟨fun h => ?_, fun h => ?_, fun ht he h1 h2 => ?_⟩
  · simp [frameEvent, h]
  · cases hc : f.frameType <;> simp_all [frameEvent]
  · simp [frameEvent, h1, h2, ht, eventNfcA, he]

/-- C5 witness: the theorem applied at concrete frames. -/
theorem frameEvent_carrier_encrypted_witness :
    frameEvent ⟨TechType.nfcB, FrameType.carrierOn, false, 0, 0, []⟩ none = "RF-On"
    ∧ frameEvent ⟨TechType.nfcB, FrameType.carrierOff, false, 0, 0, []⟩ none = "RF-Off"
    ∧ frameEvent ⟨TechType.nfcA, FrameType.pollFrame, true, 0, 0, [0x26]⟩ none = "" :=
  ⟨(frameEvent_carrier_encrypted _ none).1 rfl,
   (frameEvent_carrier_encrypted _ none).2.1 rfl,
   (frameEvent_carrier_encrypted _ none).2.2 rfl rfl (by decide) (by decide)⟩

set_option maxRecDepth 4096 in
/-- C10: the ISO-DEP overlay never returns the R-Block label, because any
byte matching the R-Block pattern under mask 0xE6 already matches the
R(ACK) or R(NACK) pattern under mask 0xF6, which are tested earlier with
the same length condition. -/
theorem eventIsoDep_no_rblock :
    (∀ f : NfcFrame, eventIsoDep f ≠ "R-Block")
    ∧ (∀ b : Nat, b < 256 → b &&& 0xE6 = 0xA2 →
        b &&& 0xF6 = 0xA2 ∨ b &&& 0xF6 = 0xB2) := by
  have key : ∀ b : Nat, b < 256 → b &&& 0xE6 = 0xA2 →
      b &&& 0xF6 = 0xA2 ∨ b &&& 0xF6 = 0xB2 := by decide
  refine ⟨fun f => ?_, key⟩
  have hb := byteAt_lt_256 f 0
  simp only [eventIsoDep]
  split_ifs with h1 h2 h3 h4 h5 h6 h7
  · decide
  · decide
  · decide
  · decide
  · decide
  · exfalso
    rcases key _ hb h6.1 with hA | hB
    · exact h3 ⟨hA, h6.2⟩
    · exact h4 ⟨hB, h6.2⟩
  · decide
  · decide

/-- C10 witness: the theorem applied at a concrete frame and byte. -/
theorem eventIsoDep_no_rblock_witness :
    eventIsoDep ⟨TechType.nfcA, FrameType.pollFrame, false, 0, 0, [0xA2, 0, 0]⟩ ≠ "R-Block"
    ∧ (0xB2 &&& 0xE6 = 0xA2 → 0xB2 &&& 0xF6 = 0xA2 ∨ 0xB2 &&& 0xF6 = 0xB2) :=
  ⟨eventIsoDep_no_rblock.1 _, eventIsoDep_no_rblock.2 0xB2 (by decide)⟩

/-- C6 (amended): the classifier is a total function into labels, and every
payload-byte access it performs on the frame (index 0 for technologies A
and B, index 1 for technologies F and V) is within the frame's bounds
provided the frame carries at least one payload byte for technologies A and
B and at least two for technologies F and V; a shorter technology-F or
technology-V frame makes the classifier read index 1 out of bounds. -/
theorem classifier_access_bounds :
    ∀ (f : NfcFrame) (p : Option NfcFrame),
      ((f.techType = TechType.nfcA ∨ f.techType = TechType.nfcB) →
        1 ≤ f.payload.length →
        ∀ i ∈ classifierReads f p, i < f.payload.length)
      ∧ ((f.techType = TechType.nfcF ∨ f.techType = TechType.nfcV) →
        2 ≤ f.payload.length →
        ∀ i ∈ classifierReads f p, i < f.payload.length) := by
  intro f p
  constructor
  · rintro (ht | ht) hlen i hi
    · rcases p with _ | q <;>
        simp only [classifierReads, ht] at hi <;>
        split_ifs at hi <;> simp_all <;> omega
    · simp only [classifierReads, ht] at hi
      split_ifs at hi <;> simp_all <;> omega
  · rintro (ht | ht) hlen i hi <;>
      simp only [classifierReads, ht] at hi <;>
      split_ifs at hi <;> simp_all <;> omega

/-- C6 counterexample: a technology-F poll frame with a single payload byte
makes the classifier read payload index 1, which is not within the frame's
bounds, refuting the claim's unconditional bounds statement. -/
theorem classifier_access_bounds_cex :
    ¬ (∀ i ∈ classifierReads ⟨TechType.nfcF, FrameType.pollFrame, false, 0, 0, [0x00]⟩ none,
        i < ([0x00] : List Nat).length) := by
  decide

/-- C6 witness: the amended theorem applied at concrete frames. -/
theorem classifier_access_bounds_witness :
    (∀ i ∈ classifierReads ⟨TechType.nfcA, FrameType.pollFrame, false, 0, 0, [0x26]⟩ none,
        i < ([0x26] : List Nat).length)
    ∧ (∀ i ∈ classifierReads ⟨TechType.nfcF, FrameType.pollFrame, false, 0, 0, [0xFF, 0x00]⟩ none,
        i < ([0xFF, 0x00] : List Nat).length) :=
  ⟨(classifier_access_bounds _ none).1 (Or.inl rfl) (by decide),
   (classifier_access_bounds _ none).2 (Or.inl rfl) (by decide)⟩

/-- Helper: running operations preserves the multiset identity that visible
frames followed by pending frames equal the initial contents plus all
appended frames, in order. -/
theorem runOps_frames_stream (ops : List StreamOp) :
    ∀ s : StreamState,
      (StreamModel.runOps s ops).frames ++ (StreamModel.runOps s ops).stream
        = s.frames ++ (s.stream ++ appendedFrames ops) := by
  induction ops with
  | nil => intro s; simp [StreamModel.runOps, appendedFrames]
  | cons op ops ih =>
    intro s
    cases op with
    | append f =>
      rw [StreamModel.runOps, ih]
      simp [StreamModel.append, appendedFrames]
    | fetchMore =>
      rw [StreamModel.runOps, ih]
      simp [StreamModel.fetchMore, appendedFrames]

/-- Helper: running a concatenation of operation lists composes. -/
theorem runOps_append (ops ops2 : List StreamOp) :
    ∀ s : StreamState,
      StreamModel.runOps s (ops ++ ops2)
        = StreamModel.runOps (StreamModel.runOps s ops) ops2 := by
  induction ops with
  | nil => intro s; simp [StreamModel.runOps]
  | cons op ops ih =>
    intro s
    cases op with
    | append f => rw [List.cons_append, StreamModel.runOps, StreamModel.runOps, ih]
    | fetchMore => rw [List.cons_append, StreamModel.runOps, StreamModel.runOps, ih]

/-- C7: from the empty stream buffer, any sequence of appends and
materializations followed by a final materialize leaves exactly the
appended frames, in append order, in the visible list and nothing pending;
append alone never touches the visible list and only enqueues; and the
range query over a window containing every visible frame returns all
indices in ascending (append) order. -/
theorem streamModel_append_materialize_range :
    (∀ ops : List StreamOp,
      (StreamModel.runOps ⟨[], []⟩ (ops ++ [StreamOp.fetchMore])).frames
        = appendedFrames ops
      ∧ (StreamModel.runOps ⟨[], []⟩ (ops ++ [StreamOp.fetchMore])).stream = [])
    ∧ (∀ (s : StreamState) (f : NfcFrame),
      (StreamModel.append s f).frames = s.frames
      ∧ (StreamModel.append s f).stream = s.stream ++ [f])
    ∧ (∀ (s : StreamState) (tfrom tto : Rat),
      (∀ fr ∈ s.frames, tfrom ≤ fr.timeStart ∧ fr.timeEnd ≤ tto) →
      StreamModel.modelRange s tfrom tto = List.range s.frames.length) := by
  refine ⟨fun ops => ?_, fun s f => ⟨rfl, rfl⟩, fun s tfrom tto hwin => ?_⟩
  · have h := runOps_frames_stream ops ⟨[], []⟩
    rw [runOps_append] at *
    have hdrain :
        StreamModel.runOps (StreamModel.runOps ⟨[], []⟩ ops) [StreamOp.fetchMore]
          = StreamModel.fetchMore (StreamModel.runOps ⟨[], []⟩ ops) := rfl
    rw [hdrain]
    simp only [StreamModel.fetchMore]
    simpa using h
  · rw [StreamModel.modelRange, List.filter_eq_self]
    intro i hi
    have hlt : i < s.frames.length := List.mem_range.mp hi
    have hget : s.frames[i]? = some s.frames[i] := List.getElem?_eq_getElem hlt
    have hmem : s.frames[i] ∈ s.frames := List.getElem_mem hlt
    rcases hwin _ hmem with ⟨h1, h2⟩
    simp [hget, h1, h2]

/-- C7 witness: the theorem applied at a concrete operation sequence and
a concrete buffer state. -/
theorem streamModel_append_materialize_range_witness :
    (StreamModel.runOps ⟨[], []⟩
        [StreamOp.append ⟨TechType.nfcA, FrameType.pollFrame, false, 0, 1, [0x26]⟩,
         StreamOp.fetchMore,
         StreamOp.append ⟨TechType.nfcA, FrameType.listenFrame, false, 2, 3, [0x04]⟩,
         StreamOp.fetchMore]).frames
      = [⟨TechType.nfcA, FrameType.pollFrame, false, 0, 1, [0x26]⟩,
         ⟨TechType.nfcA, FrameType.listenFrame, false, 2, 3, [0x04]⟩]
    ∧ StreamModel.modelRange
        ⟨[], [⟨TechType.nfcA, FrameType.pollFrame, false, 0, 1, [0x26]⟩,
              ⟨TechType.nfcA, FrameType.listenFrame, false, 2, 3, [0x04]⟩]⟩ (-10) 10
      = List.range 2 :=
  ⟨(streamModel_append_materialize_range.1
      [StreamOp.append ⟨TechType.nfcA, FrameType.pollFrame, false, 0, 1, [0x26]⟩,
       StreamOp.fetchMore,
       StreamOp.append ⟨TechType.nfcA, FrameType.listenFrame, false, 2, 3, [0x04]⟩]).1,
   streamModel_append_materialize_range.2.2 _ (-10) 10 (by decide)⟩

/-- Helper: with no registered callback one delivery updates the counters
and pushes through `queueStep`. -/
theorem deliverBuffer_no_callback (b : SignalBuffer) (r h : Nat) (d : DeviceState)
    (hcb : d.streamCallback = false) :
    deliverBuffer b r h d =
      ({ d with samplesReceived := d.samplesReceived + r,
                samplesDropped := d.samplesDropped + h
                  + ((queueStep d.streamQueue b).2.map SignalBuffer.elements).sum,
                streamQueue := (queueStep d.streamQueue b).1 },
       (queueStep d.streamQueue b).2) := by
  simp [deliverBuffer, hcb]

/-- Helper: with no registered callback and a queue within capacity, a run
of deliveries with no hardware-reported drops keeps the callback cleared,
preserves every delivered buffer in eviction order followed by queue order,
fills the queue to capacity, and adds exactly the evicted buffers' element
counts to the dropped counter. -/
theorem runDeliver_spec :
    ∀ (items : List (SignalBuffer × Nat × Nat)) (d : DeviceState),
      d.streamCallback = false → d.streamQueue.length ≤ 4 →
      (∀ it ∈ items, it.2.2 = 0) →
      (runDeliver items d).1.streamCallback = false
      ∧ (runDeliver items d).2 ++ (runDeliver items d).1.streamQueue
          = d.streamQueue ++ items.map Prod.fst
      ∧ (runDeliver items d).1.streamQueue.length
          = min 4 (d.streamQueue.length + items.length)
      ∧ (runDeliver items d).1.samplesDropped
          = d.samplesDropped + ((runDeliver items d).2.map SignalBuffer.elements).sum := by
  intro items
  induction items with
  | nil =>
    intro d hcb hq _
    refine ⟨hcb, by simp [runDeliver], ?_, by simp [runDeliver]⟩
    simp only [runDeliver, List.length_nil]
    omega
  | cons it rest ih =>
    intro d hcb hq hdrop
    have hit : it.2.2 = 0 := hdrop it (by simp)
    have hstep := deliverBuffer_no_callback it.1 it.2.1 it.2.2 d hcb
    have hs1cb : (deliverBuffer it.1 it.2.1 it.2.2 d).1.streamCallback = false := by
      rw [hstep]
      exact hcb
    have hs1q : (deliverBuffer it.1 it.2.1 it.2.2 d).1.streamQueue
        = (queueStep d.streamQueue it.1).1 := by
      rw [hstep]
    have hs1drop : (deliverBuffer it.1 it.2.1 it.2.2 d).1.samplesDropped
        = d.samplesDropped
          + ((queueStep d.streamQueue it.1).2.map SignalBuffer.elements).sum := by
      rw [hstep]
      simp [hit]
    have hs2 : (deliverBuffer it.1 it.2.1 it.2.2 d).2
        = (queueStep d.streamQueue it.1).2 := by
      rw [hstep]
    have hqq : (queueStep d.streamQueue it.1).2 ++ (queueStep d.streamQueue it.1).1
        = d.streamQueue ++ [it.1] := by
      by_cases hcap : 4 ≤ d.streamQueue.length
      · simp only [queueStep, if_pos hcap]
        rw [← List.append_assoc, List.take_append_drop]
      · simp only [queueStep, if_neg hcap]
        simp
    have hlen1 : (queueStep d.streamQueue it.1).1.length
        = min 4 (d.streamQueue.length + 1) := by
      by_cases hcap : 4 ≤ d.streamQueue.length
      · simp only [queueStep, if_pos hcap]
        simp only [List.length_append, List.length_drop, List.length_singleton]
        omega
      · simp only [queueStep, if_neg hcap]
        simp only [List.length_append, List.length_singleton]
        omega
    obtain ⟨ih1, ih2, ih3, ih4⟩ := ih (deliverBuffer it.1 it.2.1 it.2.2 d).1 hs1cb
        (by rw [hs1q, hlen1]; omega)
        (fun x hx => hdrop x (List.mem_cons_of_mem _ hx))
    rw [hs1q] at ih2 ih3
    rw [hlen1] at ih3
    rw [hs1drop] at ih4
    refine ⟨?_, ?_, ?_, ?_⟩
    · simp only [runDeliver]
      exact ih1
    · simp only [runDeliver, hs2]
      rw [List.append_assoc, ih2, ← List.append_assoc, hqq, List.append_assoc]
      simp
    · simp only [runDeliver, List.length_cons]
      omega
    · simp only [runDeliver, hs2]
      rw [ih4]
      simp [Nat.add_assoc]

/-- Helper: folding the Airspy callback is a `runDeliver` over the built
buffers with their received/dropped increments. -/
theorem airspy_runTransfers_eq (ts : List AirspyTransfer) :
    ∀ d : DeviceState,
      AirspyDevice.runTransfers ts d
        = runDeliver (ts.map fun t => (transferBuffer t, t.sampleCount, t.droppedSamples)) d := by
  induction ts with
  | nil => intro d; rfl
  | cons t ts ih =>
    intro d
    simp only [AirspyDevice.runTransfers, AirspyDevice.process_transfer, List.map_cons,
      runDeliver, ih]

/-- Helper: folding the Miri callback is a `runDeliver` of default-constructed
buffers with the transfer lengths. -/
theorem miri_runTransfers_eq (ls : List Nat) :
    ∀ d : DeviceState,
      MiriDevice.runTransfers ls d
        = runDeliver (ls.map fun l => (SignalBuffer.mk 0, l, 0)) d := by
  induction ls with
  | nil => intro d; rfl
  | cons l ls ih =>
    intro d
    simp only [MiriDevice.runTransfers, MiriDevice.process_transfer, List.map_cons,
      runDeliver, ih]

/-- C1: with no registered callback, delivering K > 4 buffers through either
backend's hardware capture callback from a fresh session (empty queue, zero
dropped counter, no hardware-reported drops) evicts the oldest buffer
exactly K - 4 times, the evicted buffers are exactly the first K - 4
delivered buffers in order, `samplesDropped` afterwards equals the sum of
the evicted buffers' sample counts, and the streaming queue never exceeds 4
buffers at any point of the run. -/
theorem process_transfer_overflow :
    (∀ (ts : List AirspyTransfer) (d : DeviceState),
      d.streamCallback = false → d.streamQueue = [] → d.samplesDropped = 0 →
      (∀ t ∈ ts, t.droppedSamples = 0) → 4 < ts.length →
      (AirspyDevice.runTransfers ts d).2.length = ts.length - 4
      ∧ (AirspyDevice.runTransfers ts d).2
          = (ts.map transferBuffer).take (ts.length - 4)
      ∧ (AirspyDevice.runTransfers ts d).1.samplesDropped
          = ((AirspyDevice.runTransfers ts d).2.map SignalBuffer.elements).sum
      ∧ ∀ n, ((AirspyDevice.runTransfers (ts.take n) d).1.streamQueue).length ≤ 4)
    ∧ (∀ (ls : List Nat) (d : DeviceState),
      d.streamCallback = false → d.streamQueue = [] → d.samplesDropped = 0 →
      4 < ls.length →
      (MiriDevice.runTransfers ls d).2.length = ls.length - 4
      ∧ (MiriDevice.runTransfers ls d).2
          = (ls.map fun _ => SignalBuffer.mk 0).take (ls.length - 4)
      ∧ (MiriDevice.runTransfers ls d).1.samplesDropped
          = ((MiriDevice.runTransfers ls d).2.map SignalBuffer.elements).sum
      ∧ ∀ n, ((MiriDevice.runTransfers (ls.take n) d).1.streamQueue).length ≤ 4) := by
  constructor
  · intro ts d hcb hq hd0 hdrop hlen
    have hitems : ∀ it ∈ ts.map fun t => (transferBuffer t, t.sampleCount, t.droppedSamples),
        it.2.2 = 0 := by
      intro it hit
      rw [List.mem_map] at hit
      obtain ⟨t, htmem, rfl⟩ := hit
      exact hdrop t htmem
    obtain ⟨h1, h2, h3, h4⟩ :=
      runDeliver_spec (ts.map fun t => (transferBuffer t, t.sampleCount, t.droppedSamples)) d
        hcb (by rw [hq]; simp) hitems
    rw [← airspy_runTransfers_eq] at h2 h3 h4
    rw [hq] at h2 h3
    simp only [List.nil_append, List.length_nil, Nat.zero_add, List.length_map] at h2 h3
    have hmapfst :
        (List.map (fun t => (transferBuffer t, t.sampleCount, t.droppedSamples)) ts).map Prod.fst
          = ts.map transferBuffer := by
      rw [List.map_map]
      rfl
    rw [hmapfst] at h2
    have hevlen : (AirspyDevice.runTransfers ts d).2.length = ts.length - 4 := by
      have := congrArg List.length h2
      simp only [List.length_append, List.length_map] at this
      omega
    refine ⟨hevlen, ?_, ?_, ?_⟩
    · have htake := congrArg (List.take (AirspyDevice.runTransfers ts d).2.length) h2
      rw [List.take_left] at htake
      rw [hevlen] at htake
      exact htake
    · rw [h4, hd0, Nat.zero_add]
    · intro n
      have hitemsn : ∀ it ∈ (ts.take n).map
          fun t => (transferBuffer t, t.sampleCount, t.droppedSamples), it.2.2 = 0 := by
        intro it hit
        rw [List.mem_map] at hit
        obtain ⟨t, htmem, rfl⟩ := hit
        exact hdrop t (List.take_subset n ts htmem)
      obtain ⟨-, -, h3n, -⟩ :=
        runDeliver_spec ((ts.take n).map fun t => (transferBuffer t, t.sampleCount, t.droppedSamples))
          d hcb (by rw [hq]; simp) hitemsn
      rw [← airspy_runTransfers_eq] at h3n
      omega
  · intro ls d hcb hq hd0 hlen
    have hitems : ∀ it ∈ ls.map fun l => (SignalBuffer.mk 0, l, 0), it.2.2 = 0 := by
      intro it hit
      rw [List.mem_map] at hit
      obtain ⟨l, hlmem, rfl⟩ := hit
      rfl
    obtain ⟨h1, h2, h3, h4⟩ :=
      runDeliver_spec (ls.map fun l => (SignalBuffer.mk 0, l, 0)) d hcb (by rw [hq]; simp) hitems
    rw [← miri_runTransfers_eq] at h2 h3 h4
    rw [hq] at h2 h3
    simp only [List.nil_append, List.length_nil, Nat.zero_add, List.length_map] at h2 h3
    have hmapfst :
        (List.map (fun l => (SignalBuffer.mk 0, l, (0 : Nat))) ls).map Prod.fst
          = ls.map fun _ => SignalBuffer.mk 0 := by
      rw [List.map_map]
      rfl
    rw [hmapfst] at h2
    have hevlen : (MiriDevice.runTransfers ls d).2.length = ls.length - 4 := by
      have := congrArg List.length h2
      simp only [List.length_append, List.length_map] at this
      omega
    refine ⟨hevlen, ?_, ?_, ?_⟩
    · have htake := congrArg (List.take (MiriDevice.runTransfers ls d).2.length) h2
      rw [List.take_left] at htake
      rw [hevlen] at htake
      exact htake
    · rw [h4, hd0, Nat.zero_add]
    · intro n
      have hitemsn : ∀ it ∈ (ls.take n).map fun l => (SignalBuffer.mk 0, l, 0),
          it.2.2 = 0 := by
        intro it hit
        rw [List.mem_map] at hit
        obtain ⟨l, hlmem, rfl⟩ := hit
        rfl
      obtain ⟨-, -, h3n, -⟩ :=
        runDeliver_spec ((ls.take n).map fun l => (SignalBuffer.mk 0, l, 0)) d hcb
          (by rw [hq]; simp) hitemsn
      rw [← miri_runTransfers_eq] at h3n
      omega

/-- C1 witness: the theorem applied at a concrete run of five Airspy
transfers and six Miri transfers from a fresh open device. -/
theorem process_transfer_overflow_witness :
    (AirspyDevice.runTransfers
        [⟨10, 0, AirspySampleType.float32Real⟩, ⟨20, 0, AirspySampleType.float32Iq⟩,
         ⟨30, 0, AirspySampleType.float32Real⟩, ⟨1, 0, AirspySampleType.float32Real⟩,
         ⟨2, 0, AirspySampleType.float32Real⟩]
        ⟨true, false, false, [], 0, 0, 0, 0, 0, 0, 0, 0, 0, 0⟩).2.length = 1
    ∧ (MiriDevice.runTransfers [5, 5, 5, 5, 5, 5]
        ⟨true, false, false, [], 0, 0, 0, 0, 0, 0, 0, 0, 0, 0⟩).2.length = 2 :=
  ⟨(process_transfer_overflow.1 _ _ rfl rfl rfl (by decide) (by decide)).1,
   (process_transfer_overflow.2 _ _ rfl rfl rfl (by decide)).1⟩

/-- C8: start fails (-1) when the device is not open; with an open,
not-yet-streaming device a hardware arm failure leaves the device open but
not streaming with the partially-set callback cleared; stop fails (-1)
whenever the device is not streaming (given the session invariant that a
registered callback implies armed hardware); stop on a streaming device
(given the converse invariant) clears the callback and the queue and resets
the stream time to unset; and a successful start zeroes both counters,
clears the queue, records the stream time and arms streaming. -/
theorem airspy_start_stop_lifecycle :
    ∀ (d : DeviceState) (armResult cancelResult : Int) (now : Nat),
      (AirspyDevice.isOpen d = false → (AirspyDevice.start armResult now d).1 = -1)
      ∧ (AirspyDevice.isOpen d = true → armResult ≠ 0 → d.hwStreaming = false →
          AirspyDevice.isOpen (AirspyDevice.start armResult now d).2 = true
          ∧ AirspyDevice.isStreaming (AirspyDevice.start armResult now d).2 = false
          ∧ (AirspyDevice.start armResult now d).2.streamCallback = false)
      ∧ (AirspyDevice.isStreaming d = false →
          (d.streamCallback = true → d.hwStreaming = true) →
          (AirspyDevice.stop cancelResult d).1 = -1)
      ∧ (AirspyDevice.isStreaming d = true →
          (d.hwStreaming = true → d.streamCallback = true) →
          (AirspyDevice.stop cancelResult d).2.streamCallback = false
          ∧ (AirspyDevice.stop cancelResult d).2.streamQueue = []
          ∧ (AirspyDevice.stop cancelResult d).2.streamTime = 0)
      ∧ (AirspyDevice.isOpen d = true → armResult = 0 →
          (AirspyDevice.start armResult now d).2.samplesReceived = 0
          ∧ (AirspyDevice.start armResult now d).2.samplesDropped = 0
          ∧ (AirspyDevice.start armResult now d).2.streamQueue = []
          ∧ (AirspyDevice.start armResult now d).2.streamTime = now
          ∧ AirspyDevice.isStreaming (AirspyDevice.start armResult now d).2 = true) := by
  intro d armResult cancelResult now
  refine ⟨fun hopen => ?_, fun hopen harm hhw => ?_, fun hstr hinv => ?_,
    fun hstr hinv => ?_, fun hopen harm => ?_⟩
  · simp only [AirspyDevice.isOpen] at hopen
    simp [AirspyDevice.start, hopen]
  · simp only [AirspyDevice.isOpen] at hopen ⊢
    simp [AirspyDevice.start, AirspyDevice.isStreaming, hopen, harm, hhw]
  · simp only [AirspyDevice.isStreaming] at hstr
    cases hh : d.deviceHandle
    · simp [AirspyDevice.stop, hh]
    · have hhw : d.hwStreaming = false := by
        cases hw : d.hwStreaming
        · rfl
        · rw [hh, hw] at hstr
          simp at hstr
      have hcb : d.streamCallback = false := by
        cases hc : d.streamCallback
        · rfl
        · simp [hinv hc] at hhw
      simp [AirspyDevice.stop, hcb]
  · simp only [AirspyDevice.isStreaming, Bool.and_eq_true] at hstr
    have hcb : d.streamCallback = true := hinv hstr.2
    simp [AirspyDevice.stop, hstr.1, hcb]
  · simp only [AirspyDevice.isOpen] at hopen
    simp [AirspyDevice.start, AirspyDevice.isStreaming, hopen, harm]

/-- C8 witness: the theorem applied at concrete closed, open and streaming
device states. -/
theorem airspy_start_stop_lifecycle_witness :
    (AirspyDevice.start 0 99 ⟨false, false, false, [], 0, 0, 0, 0, 0, 0, 0, 0, 0, 0⟩).1 = -1
    ∧ (AirspyDevice.start (-5) 99
        ⟨true, false, false, [], 3, 4, 0, 0, 0, 0, 0, 0, 0, 0⟩).2.streamCallback = false
    ∧ (AirspyDevice.stop 0 ⟨true, false, false, [], 0, 0, 0, 0, 0, 0, 0, 0, 0, 0⟩).1 = -1
    ∧ (AirspyDevice.stop 0
        ⟨true, true, true, [⟨7⟩], 9, 9, 42, 0, 0, 0, 0, 0, 0, 0⟩).2.streamTime = 0
    ∧ (AirspyDevice.start 0 99
        ⟨true, false, false, [⟨7⟩], 3, 4, 0, 0, 0, 0, 0, 0, 0, 0⟩).2.streamTime = 99 := by
  refine ⟨?_, ?_, ?_, ?_, ?_⟩
  · exact (airspy_start_stop_lifecycle
      ⟨false, false, false, [], 0, 0, 0, 0, 0, 0, 0, 0, 0, 0⟩ 0 0 99).1 rfl
  · exact ((airspy_start_stop_lifecycle
      ⟨true, false, false, [], 3, 4, 0, 0, 0, 0, 0, 0, 0, 0⟩ (-5) 0 99).2.1
        rfl (by decide) rfl).2.2
  · exact (airspy_start_stop_lifecycle
      ⟨true, false, false, [], 0, 0, 0, 0, 0, 0, 0, 0, 0, 0⟩ 0 0 99).2.2.1 rfl (by simp)
  · exact ((airspy_start_stop_lifecycle
      ⟨true, true, true, [⟨7⟩], 9, 9, 42, 0, 0, 0, 0, 0, 0, 0⟩ 0 0 99).2.2.2.1
        rfl (by simp)).2.2
  · exact ((airspy_start_stop_lifecycle
      ⟨true, false, false, [⟨7⟩], 3, 4, 0, 0, 0, 0, 0, 0, 0, 0⟩ 0 0 99).2.2.2.2
        rfl rfl).2.2.2.1

/-- C9: the `MiriDevice` public sample-rate pair is broken: the public
mutator discards the requested value (the Impl mutator, never called by it,
would store it) and the public accessor returns the literal 0 instead of
the stored value, so setting 10000000 and reading back yields 0. The other
listed mutators store as claimed. -/
theorem miri_sampleRate_public_stub :
    (MiriDevice.sampleRate
        (MiriDevice.setSampleRate ⟨true, false, false, [], 0, 0, 0, 0, 0, 0, 0, 0, 0, 0⟩
          10000000).2 = 0
     ∧ (MiriDevice.setSampleRate ⟨true, false, false, [], 0, 0, 0, 0, 0, 0, 0, 0, 0, 0⟩
          10000000).2.sampleRate = 0
     ∧ (MiriDevice.implSetSampleRate ⟨true, false, false, [], 0, 0, 0, 0, 0, 0, 0, 0, 0, 0⟩
          10000000).2.sampleRate = 10000000
     ∧ (0 : Int) ≠ 10000000)
    ∧ (∀ (d : DeviceState) (pr v : Int),
        (AirspyDevice.setCenterFreq pr d v).2.centerFreq = v
        ∧ (AirspyDevice.setSampleRate pr d v).2.sampleRate = v
        ∧ (AirspyDevice.setGainMode pr d v).2.gainMode = v
        ∧ (AirspyDevice.setGainValue pr d v).2.gainValue = v
        ∧ (AirspyDevice.setDecimation d v).2.decimation = v
        ∧ (AirspyDevice.setTunerAgc pr d v).2.tunerAgc = v
        ∧ (AirspyDevice.setMixerAgc pr d v).2.mixerAgc = v) := by
  constructor
  · refine ⟨rfl, rfl, by decide, by decide⟩
  · intro d pr v
    refine ⟨?_, ?_, ?_, ?_, rfl, ?_, ?_⟩
    · simp [AirspyDevice.setCenterFreq]
      split_ifs <;> rfl
    · simp [AirspyDevice.setSampleRate]
      split_ifs <;> rfl
    · simp [AirspyDevice.setGainMode, AirspyDevice.setGainValue]
      split_ifs <;> rfl
    · simp [AirspyDevice.setGainValue]
      split_ifs <;> rfl
    · simp [AirspyDevice.setTunerAgc]
      split_ifs <;> rfl
    · simp [AirspyDevice.setMixerAgc]
      split_ifs <;> rfl
